import Mathlib

/-!
Verification development for the gpx-to-svg geometry pipeline.

The source under scrutiny is the 3D viewer module (Building3D, Foundation3D,
GPXTrack3D, Scene3D).  Machine numbers (JS doubles) are modelled as an
extended-rational type JSNumber with explicit NaN and signed infinities;
exact rational arithmetic stands in for IEEE doubles (rounding and overflow
of doubles are outside the model, and no theorem below depends on them).
The JS string-to-number builtins parseFloat and parseInt are modelled by
executable Lean functions following the ECMAScript grammar (longest valid
prefix, leading-whitespace skip, the Infinity literal, optional exponent).
-/

namespace GpxToSvg

/-- JS double values as used by the pipeline: NaN, the two infinities, or a
finite value (modelled exactly as a rational). -/
inductive JSNumber where
  | nan : JSNumber
  | posInf : JSNumber
  | negInf : JSNumber
  | finite : ℚ → JSNumber
deriving DecidableEq, Repr

/-- Negation of a JS number. -/
def jsNeg : JSNumber → JSNumber
  | JSNumber.nan => JSNumber.nan
  | JSNumber.posInf => JSNumber.negInf
  | JSNumber.negInf => JSNumber.posInf
  | JSNumber.finite q => JSNumber.finite (-q)

/-- JS addition: NaN propagates, opposite infinities give NaN. -/
def jsAdd : JSNumber → JSNumber → JSNumber
  | JSNumber.nan, _ => JSNumber.nan
  | _, JSNumber.nan => JSNumber.nan
  | JSNumber.posInf, JSNumber.negInf => JSNumber.nan
  | JSNumber.negInf, JSNumber.posInf => JSNumber.nan
  | JSNumber.posInf, _ => JSNumber.posInf
  | _, JSNumber.posInf => JSNumber.posInf
  | JSNumber.negInf, _ => JSNumber.negInf
  | _, JSNumber.negInf => JSNumber.negInf
  | JSNumber.finite p, JSNumber.finite q => JSNumber.finite (p + q)

/-- JS subtraction, defined as addition of the negation. -/
def jsSub (a b : JSNumber) : JSNumber := jsAdd a (jsNeg b)

/-- JS multiplication: NaN propagates, infinity times zero is NaN. -/
def jsMul : JSNumber → JSNumber → JSNumber
  | JSNumber.nan, _ => JSNumber.nan
  | _, JSNumber.nan => JSNumber.nan
  | JSNumber.posInf, JSNumber.posInf => JSNumber.posInf
  | JSNumber.posInf, JSNumber.negInf => JSNumber.negInf
  | JSNumber.negInf, JSNumber.posInf => JSNumber.negInf
  | JSNumber.negInf, JSNumber.negInf => JSNumber.posInf
  | JSNumber.posInf, JSNumber.finite q =>
      if q = 0 then JSNumber.nan else if 0 < q then JSNumber.posInf else JSNumber.negInf
  | JSNumber.finite q, JSNumber.posInf =>
      if q = 0 then JSNumber.nan else if 0 < q then JSNumber.posInf else JSNumber.negInf
  | JSNumber.negInf, JSNumber.finite q =>
      if q = 0 then JSNumber.nan else if 0 < q then JSNumber.negInf else JSNumber.posInf
  | JSNumber.finite q, JSNumber.negInf =>
      if q = 0 then JSNumber.nan else if 0 < q then JSNumber.negInf else JSNumber.posInf
  | JSNumber.finite p, JSNumber.finite q => JSNumber.finite (p * q)

/-- JS division: NaN propagates, inf/inf and 0/0 are NaN, finite nonzero over
zero gives a signed infinity (the model has no negative zero). -/
def jsDiv : JSNumber → JSNumber → JSNumber
  | JSNumber.nan, _ => JSNumber.nan
  | _, JSNumber.nan => JSNumber.nan
  | JSNumber.posInf, JSNumber.posInf => JSNumber.nan
  | JSNumber.posInf, JSNumber.negInf => JSNumber.nan
  | JSNumber.negInf, JSNumber.posInf => JSNumber.nan
  | JSNumber.negInf, JSNumber.negInf => JSNumber.nan
  | JSNumber.posInf, JSNumber.finite q => if 0 ≤ q then JSNumber.posInf else JSNumber.negInf
  | JSNumber.negInf, JSNumber.finite q => if 0 ≤ q then JSNumber.negInf else JSNumber.posInf
  | JSNumber.finite _, JSNumber.posInf => JSNumber.finite 0
  | JSNumber.finite _, JSNumber.negInf => JSNumber.finite 0
  | JSNumber.finite p, JSNumber.finite q =>
      if q = 0 then
        (if p = 0 then JSNumber.nan else if 0 < p then JSNumber.posInf else JSNumber.negInf)
      else JSNumber.finite (p / q)

/-- JS strict comparison a < b: false whenever NaN is involved. -/
def jsLt : JSNumber → JSNumber → Bool
  | JSNumber.nan, _ => false
  | _, JSNumber.nan => false
  | JSNumber.negInf, JSNumber.negInf => false
  | JSNumber.negInf, _ => true
  | _, JSNumber.negInf => false
  | JSNumber.posInf, _ => false
  | _, JSNumber.posInf => true
  | JSNumber.finite p, JSNumber.finite q => decide (p < q)

/-- JS comparison a ≤ b: false whenever NaN is involved. -/
def jsLe : JSNumber → JSNumber → Bool
  | JSNumber.nan, _ => false
  | _, JSNumber.nan => false
  | a, b => !(jsLt b a)

/-- JS strict equality on numbers: NaN equals nothing, otherwise value equality. -/
def jsEq : JSNumber → JSNumber → Bool
  | JSNumber.nan, _ => false
  | _, JSNumber.nan => false
  | JSNumber.posInf, JSNumber.posInf => true
  | JSNumber.negInf, JSNumber.negInf => true
  | JSNumber.finite p, JSNumber.finite q => decide (p = q)
  | _, _ => false

/-- True exactly on finite values. -/
def jsIsFinite : JSNumber → Bool
  | JSNumber.finite _ => true
  | _ => false

/-- JS Math.min on two numbers (NaN propagates). -/
def jsMin : JSNumber → JSNumber → JSNumber
  | JSNumber.nan, _ => JSNumber.nan
  | _, JSNumber.nan => JSNumber.nan
  | JSNumber.negInf, _ => JSNumber.negInf
  | _, JSNumber.negInf => JSNumber.negInf
  | JSNumber.posInf, b => b
  | a, JSNumber.posInf => a
  | JSNumber.finite p, JSNumber.finite q => JSNumber.finite (min p q)

/-- JS Math.max on two numbers (NaN propagates). -/
def jsMax : JSNumber → JSNumber → JSNumber
  | JSNumber.nan, _ => JSNumber.nan
  | _, JSNumber.nan => JSNumber.nan
  | JSNumber.posInf, _ => JSNumber.posInf
  | _, JSNumber.posInf => JSNumber.posInf
  | JSNumber.negInf, b => b
  | a, JSNumber.negInf => a
  | JSNumber.finite p, JSNumber.finite q => JSNumber.finite (max p q)

/-- Math.min spread over a list; the empty spread gives +Infinity as in JS. -/
def jsMinList (l : List JSNumber) : JSNumber := l.foldl jsMin JSNumber.posInf

/-- Math.max spread over a list; the empty spread gives -Infinity as in JS. -/
def jsMaxList (l : List JSNumber) : JSNumber := l.foldl jsMax JSNumber.negInf

/-- Decimal digit test on a character. -/
def isDigitChar (c : Char) : Bool := decide ('0' ≤ c) && decide (c ≤ '9')

/-- Hexadecimal digit test on a character. -/
def isHexDigitChar (c : Char) : Bool :=
  isDigitChar c || (decide ('a' ≤ c) && decide (c ≤ 'f')) || (decide ('A' ≤ c) && decide (c ≤ 'F'))

/-- Whitespace characters skipped by the JS numeric parsers. -/
def isWhitespaceChar (c : Char) : Bool :=
  decide (c = ' ') || decide (c = '\t') || decide (c = '\n') || decide (c = '\r')

/-- Numeric value of a decimal digit character. -/
def digitVal (c : Char) : ℕ := c.toNat - ('0').toNat

/-- Numeric value of a hexadecimal digit character. -/
def hexDigitVal (c : Char) : ℕ :=
  if isDigitChar c then c.toNat - ('0').toNat
  else if decide ('a' ≤ c) && decide (c ≤ 'f') then c.toNat - ('a').toNat + 10
  else c.toNat - ('A').toNat + 10

/-- Value of a decimal digit string. -/
def digitsToNat (ds : List Char) : ℕ := ds.foldl (fun a c => 10 * a + digitVal c) 0

/-- Value of a hexadecimal digit string. -/
def hexToNat (ds : List Char) : ℕ := ds.foldl (fun a c => 16 * a + hexDigitVal c) 0

/-- Natural power of ten as a rational, by explicit recursion so that the
kernel can evaluate it. -/
def tenPowNat : ℕ → ℚ
  | 0 => 1
  | n + 1 => 10 * tenPowNat n

/-- Integer power of ten as a rational. -/
def tenPow (e : ℤ) : ℚ := if 0 ≤ e then tenPowNat e.toNat else (tenPowNat (-e).toNat)⁻¹

/-- ExponentPart of the JS StrDecimalLiteral grammar: e or E, an optional
sign, then digits.  Yields 0 (no exponent consumed) when the digits are
missing, mirroring the longest-valid-prefix backtracking of parseFloat. -/
def parseExp (cs : List Char) : ℤ :=
  match cs with
  | c :: rest =>
    if c = 'e' ∨ c = 'E' then
      match rest with
      | '+' :: r =>
        let ds := r.takeWhile isDigitChar
        if ds.isEmpty then 0 else (digitsToNat ds : ℤ)
      | '-' :: r =>
        let ds := r.takeWhile isDigitChar
        if ds.isEmpty then 0 else -(digitsToNat ds : ℤ)
      | r =>
        let ds := r.takeWhile isDigitChar
        if ds.isEmpty then 0 else (digitsToNat ds : ℤ)
    else 0
  | [] => 0

/-- Body of JS parseFloat after whitespace and sign: the Infinity literal, or
digits with optional fraction and exponent, or a leading-dot fraction;
anything else is NaN. -/
def parseFloatBody (cs : List Char) : JSNumber :=
  if cs.take 8 = ("Infinity").toList then JSNumber.posInf
  else
    let p := cs.span isDigitChar
    if p.1.isEmpty then
      match p.2 with
      | '.' :: r2 =>
        let q := r2.span isDigitChar
        if q.1.isEmpty then JSNumber.nan
        else JSNumber.finite
          (((digitsToNat q.1 : ℚ) / tenPowNat q.1.length) * tenPow (parseExp q.2))
      | _ => JSNumber.nan
    else
      match p.2 with
      | '.' :: r2 =>
        let q := r2.span isDigitChar
        JSNumber.finite
          (((digitsToNat p.1 : ℚ) + (digitsToNat q.1 : ℚ) / tenPowNat q.1.length)
            * tenPow (parseExp q.2))
      | r => JSNumber.finite ((digitsToNat p.1 : ℚ) * tenPow (parseExp r))

/-- Model of the JS builtin parseFloat: skip leading whitespace, optional
sign, then the longest prefix matching the decimal-literal grammar; NaN if
none.  Exact rational values stand in for IEEE doubles. -/
def parseFloat (s : String) : JSNumber :=
  match s.toList.dropWhile isWhitespaceChar with
  | '+' :: r => parseFloatBody r
  | '-' :: r => jsNeg (parseFloatBody r)
  | r => parseFloatBody r

/-- Digit part of JS parseInt with no radix argument: a 0x or 0X prefix
switches to hexadecimal, otherwise the longest decimal-digit prefix; none
models NaN. -/
def parseIntDigits (cs : List Char) : Option ℕ :=
  match cs with
  | '0' :: c :: rest =>
    if c = 'x' ∨ c = 'X' then
      let ds := rest.takeWhile isHexDigitChar
      if ds.isEmpty then none else some (hexToNat ds)
    else
      some (digitsToNat (('0' :: c :: rest).takeWhile isDigitChar))
  | _ =>
    let ds := cs.takeWhile isDigitChar
    if ds.isEmpty then none else some (digitsToNat ds)

/-- Model of the JS builtin parseInt (radix omitted): whitespace skip,
optional sign, digit prefix; none models NaN. -/
def parseIntJS (s : String) : Option ℤ :=
  match s.toList.dropWhile isWhitespaceChar with
  | '+' :: r => (parseIntDigits r).map (fun n => (n : ℤ))
  | '-' :: r => (parseIntDigits r).map (fun n => -(n : ℤ))
  | r => (parseIntDigits r).map (fun n => (n : ℤ))

/-- Tag mapping of a building: string keys to string values, first entry wins
(keys of a JS record are unique). -/
abbrev Tags := List (String × String)

/-- Reading a property of the tag record: some value when present. -/
def tagsGet (tags : Tags) (key : String) : Option String :=
  (tags.find? (fun kv => kv.1 == key)).map (fun kv => kv.2)

/-- JS truthiness of an optional string: false for an absent tag and for the
empty string. -/
def truthy : Option String → Bool
  | none => false
  | some s => !(s == "")

/-- Geographic coordinate as consumed by the viewer (latitude, longitude). -/
structure GeoCoord where
  lat : ℚ
  lon : ℚ
deriving DecidableEq, Repr

/-- A building record from the map-data source: footprint vertices plus tags. -/
structure Building where
  geometry : List GeoCoord
  tags : Tags
deriving DecidableEq, Repr

/-- The fixed category table of the source switch statement on the building
tag value; the default arm also covers an absent tag. -/
def buildingTypeHeight : Option String → ℚ
  | none => 6
  | some s =>
    if s = "house" then 6
    else if s = "residential" then 6
    else if s = "apartments" then 15
    else if s = "commercial" then 4
    else if s = "retail" then 4
    else if s = "industrial" then 8
    else if s = "office" then 20
    else if s = "hospital" then 12
    else if s = "school" then 4
    else if s = "church" then 15
    else 6

/-- Transcription of getBuildingHeight (part_000 lines 96-122).  The source
is an if / else-if / else chain: a truthy height tag is parsed with
parseFloat and returned when not NaN, otherwise control falls to the final
return of the default 6 (the levels and building-type rules are NOT
consulted); only when the height tag is absent or empty is building:levels
consulted (parseInt, times 3), and only when that too is absent or empty is
the building-type table consulted. -/
def getBuildingHeight (building : Building) : JSNumber :=
  if truthy (tagsGet building.tags ("height")) then
    match parseFloat ((tagsGet building.tags ("height")).getD ("")) with
    | JSNumber.nan => JSNumber.finite 6
    | v => v
  else if truthy (tagsGet building.tags ("building:levels")) then
    match parseIntJS ((tagsGet building.tags ("building:levels")).getD ("")) with
    | some n => JSNumber.finite ((n : ℚ) * 3)
    | none => JSNumber.finite 6
  else
    JSNumber.finite (buildingTypeHeight (tagsGet building.tags ("building")))

/-- Geographic bounding box of the scene (OSMBounds). -/
structure OSMBounds where
  north : ℚ
  south : ℚ
  east : ℚ
  west : ℚ
deriving DecidableEq, Repr

/-- Output scene extents in model units (modelDimensions prop). -/
structure ModelDimensions where
  width : ℚ
  depth : ℚ
deriving DecidableEq, Repr

/-- Planar model-space coordinate produced by projection; the second source
component is the THREE.Vector2 y, written z throughout the viewer. -/
structure ProjectedPoint where
  x : ℚ
  z : ℚ
deriving DecidableEq, Repr

/-- Target output height range (buildingHeightRange prop, millimeters). -/
structure HeightRange where
  min : ℚ
  max : ℚ
deriving DecidableEq, Repr

/-- Projection as written inside Building3D (part_000 lines 46-57): lat and
lon ranges from the bounds, scale 1000 when no model dimensions are given,
then the linear window map with the z flip. -/
def buildingProjectPoint (coord : GeoCoord) (bounds : OSMBounds)
    (modelDimensions : Option ModelDimensions) : ProjectedPoint :=
  let latRange := bounds.north - bounds.south
  let lonRange := bounds.east - bounds.west
  let scaleX := match modelDimensions with
    | some m => m.width
    | none => 1000
  let scaleZ := match modelDimensions with
    | some m => m.depth
    | none => 1000
  { x := ((coord.lon - bounds.west) / lonRange - 0.5) * scaleX
    z := -((coord.lat - bounds.south) / latRange - 0.5) * scaleZ }

/-- Projection as written inside Foundation3D (part_000 lines 137-151). -/
def foundationProjectPoint (coord : GeoCoord) (bounds : OSMBounds)
    (modelDimensions : Option ModelDimensions) : ProjectedPoint :=
  let latRange := bounds.north - bounds.south
  let lonRange := bounds.east - bounds.west
  let scaleX := match modelDimensions with
    | some m => m.width
    | none => 1000
  let scaleZ := match modelDimensions with
    | some m => m.depth
    | none => 1000
  { x := ((coord.lon - bounds.west) / lonRange - 0.5) * scaleX
    z := -((coord.lat - bounds.south) / latRange - 0.5) * scaleZ }

/-- Projection as written inside GPXTrack3D (part_000 lines 244-256). -/
def trackProjectPoint (coord : GeoCoord) (bounds : OSMBounds)
    (modelDimensions : Option ModelDimensions) : ProjectedPoint :=
  let latRange := bounds.north - bounds.south
  let lonRange := bounds.east - bounds.west
  let scaleX := match modelDimensions with
    | some m => m.width
    | none => 1000
  let scaleZ := match modelDimensions with
    | some m => m.depth
    | none => 1000
  { x := ((coord.lon - bounds.west) / lonRange - 0.5) * scaleX
    z := -((coord.lat - bounds.south) / latRange - 0.5) * scaleZ }

/-- Triangle mesh as vertex triples plus triangle indices; the source keeps
positions as a flat float array whose count is the vertex count. -/
structure Mesh where
  vertices : List (ℚ × ℚ × ℚ)
  indices : List ℕ
deriving DecidableEq, Repr

/-- A freshly constructed empty THREE.BufferGeometry. -/
def emptyMesh : Mesh := { vertices := [], indices := [] }

/-- One step of the merge loop of Foundation3D (part_000 lines 184-201):
append the vertices of the next geometry, append its indices shifted by the
running vertex offset, and advance the offset by its vertex count. -/
def mergeStep (acc : Mesh × ℕ) (g : Mesh) : Mesh × ℕ :=
  ({ vertices := acc.1.vertices ++ g.vertices
     indices := acc.1.indices ++ g.indices.map (fun i => i + acc.2) },
   acc.2 + g.vertices.length)

/-- Merging of the foundation geometries (part_000 lines 160, 175-208): zero
inputs yield an empty geometry (the early return on no shapes), a single
input is returned unchanged, several inputs are folded through mergeStep
starting from an empty accumulator and zero offset.  Vertex normals,
recomputed on the merged buffer in the source, are not part of the mesh
model. -/
def mergeMeshes (geometries : List Mesh) : Mesh :=
  match geometries with
  | [] => emptyMesh
  | [g] => g
  | gs => (gs.foldl mergeStep (emptyMesh, 0)).1

/-- Restatement, in recursive form, of the merge description of the spec
(each vertex list appended in order, each index list appended shifted by the
running vertex-count offset); compared against the fold of the source by the
merge theorem. -/
def mergeSpecRec : List Mesh → Mesh
  | [] => emptyMesh
  | m :: ms =>
      { vertices := m.vertices ++ (mergeSpecRec ms).vertices
        indices := m.indices ++ (mergeSpecRec ms).indices.map (fun i => i + m.vertices.length) }

/-- The per-building footprint outline built by Building3D (part_000 lines
53-58): every geometry vertex is projected and pushed, with no vertex-count
check of any kind. -/
def buildingShapePoints (building : Building) (bounds : OSMBounds)
    (modelDimensions : Option ModelDimensions) : List ProjectedPoint :=
  building.geometry.map (fun coord => buildingProjectPoint coord bounds modelDimensions)

/-- The outlines Scene3D creates, one Building3D per building of the scene
(part_000 lines 417-431); no building is skipped. -/
def sceneBuildingShapes (buildings : List Building) (bounds : OSMBounds)
    (modelDimensions : Option ModelDimensions) : List (List ProjectedPoint) :=
  buildings.map (fun b => buildingShapePoints b bounds modelDimensions)

/-- The foundation outlines of Foundation3D (part_000 lines 145-158): a
building contributes a shape only when its footprint has more than two
vertices (the source re-checks the projected point count, which equals the
vertex count); the source also guards against an absent geometry array,
which the list model renders always present. -/
def foundationShapes (buildings : List Building) (bounds : OSMBounds)
    (modelDimensions : Option ModelDimensions) : List (List ProjectedPoint) :=
  buildings.filterMap (fun building =>
    if 2 < building.geometry.length then
      let points := building.geometry.map
        (fun coord => foundationProjectPoint coord bounds modelDimensions)
      if 2 < points.length then some points else none
    else none)

/-- Modelled from the spec: prism extrusion of a closed 2D outline by a given
depth is delegated by the source to the external THREE.ExtrudeGeometry
(bevel disabled), which is not part of this repository.  Following the spec
description of a prism with flat caps, the model places the outline at
offsets 0 and depth and walls each outline edge with two triangles; cap
triangulation, normals and the exact buffer layout of THREE are outside the
model. -/
def extrudePrism (outline : List ProjectedPoint) (depth : ℚ) : Mesh :=
  let n := outline.length
  let bottom := outline.map (fun p => (p.x, p.z, (0 : ℚ)))
  let top := outline.map (fun p => (p.x, p.z, depth))
  let sideIndices := (List.range n).flatMap (fun i =>
    [i, (i + 1) % n, n + i, (i + 1) % n, n + ((i + 1) % n), n + i])
  { vertices := bottom ++ top, indices := sideIndices }

/-- The full foundation geometry path (part_000 lines 133-208): no buildings
or no usable shapes give an empty geometry, otherwise every shape is
extruded by the fixed 2-unit foundation thickness and the results merged. -/
def foundationGeometry (buildings : List Building) (bounds : OSMBounds)
    (modelDimensions : Option ModelDimensions) : Mesh :=
  if buildings.length = 0 then emptyMesh
  else
    let allShapes := foundationShapes buildings bounds modelDimensions
    if allShapes.length = 0 then emptyMesh
    else mergeMeshes (allShapes.map (fun s => extrudePrism s 2))

/-- A parsed track point as delivered by the external GPX parser; the viewer
reads only lat and lon, the optional elevation is carried along. -/
structure GPXPoint where
  lat : ℚ
  lon : ℚ
  ele : Option ℚ
deriving DecidableEq, Repr

/-- THREE.Vector2 addVectors. -/
def vadd (a b : ProjectedPoint) : ProjectedPoint := { x := a.x + b.x, z := a.z + b.z }

/-- THREE.Vector2 subVectors. -/
def vsub (a b : ProjectedPoint) : ProjectedPoint := { x := a.x - b.x, z := a.z - b.z }

/-- THREE.Vector2 multiplyScalar. -/
def vscale (k : ℚ) (a : ProjectedPoint) : ProjectedPoint := { x := k * a.x, z := k * a.z }

/-- The perpendicular taken by the track extruder: (-direction.y, direction.x). -/
def vperp (d : ProjectedPoint) : ProjectedPoint := { x := -d.z, z := d.x }

/-- Per-vertex direction of the track ribbon (part_000 lines 267-303):
endpoints take the single adjacent segment direction, interior vertices the
normalized sum of the incoming and outgoing directions.  The normalization
of THREE.Vector2 divides by a Euclidean length, an operation on IEEE doubles
external to the repository, so it is passed in as a parameter; every theorem
below holds for an arbitrary normalization. -/
def dirAt (norm : ProjectedPoint → ProjectedPoint) (pts : List ProjectedPoint)
    (i : ℕ) : ProjectedPoint :=
  if i = 0 then
    norm (vsub (pts.getD 1 { x := 0, z := 0 }) (pts.getD 0 { x := 0, z := 0 }))
  else if i = pts.length - 1 then
    norm (vsub (pts.getD i { x := 0, z := 0 }) (pts.getD (i - 1) { x := 0, z := 0 }))
  else
    norm (vadd
      (norm (vsub (pts.getD i { x := 0, z := 0 }) (pts.getD (i - 1) { x := 0, z := 0 })))
      (norm (vsub (pts.getD (i + 1) { x := 0, z := 0 }) (pts.getD i { x := 0, z := 0 }))))

/-- The closed ribbon outline of the track (part_000 lines 265-314): walk the
points forward offsetting each by the scaled perpendicular, then walk them
backward offsetting to the other side. -/
def expandedPath (norm : ProjectedPoint → ProjectedPoint) (pts : List ProjectedPoint)
    (pathWidth : ℚ) : List ProjectedPoint :=
  ((List.range pts.length).map (fun i =>
      vadd (pts.getD i { x := 0, z := 0 }) (vscale pathWidth (vperp (dirAt norm pts i)))))
    ++ ((List.range pts.length).reverse.map (fun i =>
      vsub (pts.getD i { x := 0, z := 0 }) (vscale pathWidth (vperp (dirAt norm pts i)))))

/-- The track geometry of GPXTrack3D (part_000 lines 241-323): fewer than two
points yield a fresh empty buffer geometry; otherwise the points are
projected, ribboned with half the stroke width, and extruded by the
path-extrusion height, where the JS or-default turns both an absent and a
zero height into 2. -/
def trackGeometry (norm : ProjectedPoint → ProjectedPoint) (points : List GPXPoint)
    (bounds : OSMBounds) (strokeWidth : ℚ) (modelDimensions : Option ModelDimensions)
    (pathExtrusionHeight : Option ℚ) : Mesh :=
  if points.length < 2 then emptyMesh
  else
    let extrusionHeight : ℚ := match pathExtrusionHeight with
      | some h => if h = 0 then 2 else h
      | none => 2
    let pathPoints := points.map (fun p =>
      trackProjectPoint { lat := p.lat, lon := p.lon } bounds modelDimensions)
    let pathWidth := strokeWidth * 0.5
    extrudePrism (expandedPath norm pathPoints pathWidth) extrusionHeight

/-- The height-mapping record Scene3D hands to each Building3D: source range
(as JS numbers coming from Math.min and Math.max over resolved heights) and
target range in millimeters. -/
structure HeightMapping where
  min : JSNumber
  max : JSNumber
  minMM : ℚ
  maxMM : ℚ
deriving DecidableEq, Repr

/-- The height mapping computed by Scene3D (part_000 lines 375-395): null
when there are no buildings or no target range; otherwise min and max over
all resolved heights, widened by one to each side when they are equal. -/
def sceneHeightMapping (buildings : List Building) (buildingHeightRange : Option HeightRange) :
    Option HeightMapping :=
  match buildingHeightRange with
  | none => none
  | some range =>
    if buildings.length = 0 then none
    else
      let heights := buildings.map getBuildingHeight
      let minHeight := jsMinList heights
      let maxHeight := jsMaxList heights
      let actualMin := if jsEq minHeight maxHeight then jsSub minHeight (JSNumber.finite 1)
        else minHeight
      let actualMax := if jsEq minHeight maxHeight then jsAdd maxHeight (JSNumber.finite 1)
        else maxHeight
      some { min := actualMin, max := actualMax, minMM := range.min, maxMM := range.max }

/-- The mapping actually received by every Building3D (part_000 line 428):
the computed mapping when available, otherwise the literal fallback record
with min 6, max 6, minMM 5, maxMM 30. -/
def scene3DBuildingMapping (buildings : List Building)
    (buildingHeightRange : Option HeightRange) : HeightMapping :=
  (sceneHeightMapping buildings buildingHeightRange).getD
    { min := JSNumber.finite 6, max := JSNumber.finite 6, minMM := 5, maxMM := 30 }

/-- The color-ramp height mapping inside Building3D (part_000 lines 63-66):
normalize the original height against the source range, then interpolate the
millimeter range, all in JS double arithmetic. -/
def mappedBuildingHeight (originalHeight : JSNumber) (hm : HeightMapping) : JSNumber :=
  let normalizedHeight := jsDiv (jsSub originalHeight hm.min) (jsSub hm.max hm.min)
  jsAdd (JSNumber.finite hm.minMM) (jsMul normalizedHeight (JSNumber.finite (hm.maxMM - hm.minMM)))

/-! Helper lemmas. -/

lemma foldl_jsMin_finite (t : List JSNumber) (ht : t.all jsIsFinite = true) :
    ∀ a : ℚ, ∃ m : ℚ, t.foldl jsMin (JSNumber.finite a) = JSNumber.finite m ∧ m ≤ a := by
  induction t with
  | nil => intro a; exact ⟨a, rfl, le_refl a⟩
  | cons x t ih =>
    rw [List.all_cons, Bool.and_eq_true] at ht
    intro a
    cases x with
    | finite q =>
      obtain ⟨m, hm, hma⟩ := ih ht.2 (min a q)
      refine ⟨m, ?_, le_trans hma (min_le_left a q)⟩
      simpa [jsMin] using hm
    | nan => simp [jsIsFinite] at ht
    | posInf => simp [jsIsFinite] at ht
    | negInf => simp [jsIsFinite] at ht

lemma foldl_jsMax_finite (t : List JSNumber) (ht : t.all jsIsFinite = true) :
    ∀ a : ℚ, ∃ M : ℚ, t.foldl jsMax (JSNumber.finite a) = JSNumber.finite M ∧ a ≤ M := by
  induction t with
  | nil => intro a; exact ⟨a, rfl, le_refl a⟩
  | cons x t ih =>
    rw [List.all_cons, Bool.and_eq_true] at ht
    intro a
    cases x with
    | finite q =>
      obtain ⟨M, hM, hMa⟩ := ih ht.2 (max a q)
      refine ⟨M, ?_, le_trans (le_max_left a q) hMa⟩
      simpa [jsMax] using hM
    | nan => simp [jsIsFinite] at ht
    | posInf => simp [jsIsFinite] at ht
    | negInf => simp [jsIsFinite] at ht

lemma jsMinMaxList_finite (h0 : JSNumber) (t : List JSNumber)
    (hall : (h0 :: t).all jsIsFinite = true) :
    ∃ m M : ℚ, jsMinList (h0 :: t) = JSNumber.finite m ∧
      jsMaxList (h0 :: t) = JSNumber.finite M ∧ m ≤ M := by
  rw [List.all_cons, Bool.and_eq_true] at hall
  cases h0 with
  | finite q =>
    obtain ⟨m, hm, hma⟩ := foldl_jsMin_finite t hall.2 q
    obtain ⟨M, hM, hMa⟩ := foldl_jsMax_finite t hall.2 q
    exact ⟨m, M, by simpa [jsMinList, jsMin] using hm,
      by simpa [jsMaxList, jsMax] using hM, le_trans hma hMa⟩
  | nan => simp [jsIsFinite] at hall
  | posInf => simp [jsIsFinite] at hall
  | negInf => simp [jsIsFinite] at hall

lemma buildingTypeHeight_pos (bt : Option String) : 0 < buildingTypeHeight bt := by
  cases bt with
  | none => norm_num [buildingTypeHeight]
  | some s =>
    simp only [buildingTypeHeight]
    split_ifs <;> norm_num

lemma getBuildingHeight_ne_nan (building : Building) :
    getBuildingHeight building ≠ JSNumber.nan := by
  unfold getBuildingHeight
  split
  · cases hpf : parseFloat ((tagsGet building.tags ("height")).getD ("")) <;> simp [hpf]
  · split
    · cases hpi : parseIntJS ((tagsGet building.tags ("building:levels")).getD ("")) <;>
        simp [hpi]
    · simp

lemma foldl_mergeStep (gs : List Mesh) :
    ∀ acc : Mesh, (gs.foldl mergeStep (acc, acc.vertices.length)).1 =
      { vertices := acc.vertices ++ (mergeSpecRec gs).vertices
        indices := acc.indices ++ (mergeSpecRec gs).indices.map
          (fun i => i + acc.vertices.length) } := by
  induction gs with
  | nil => intro acc; simp [mergeSpecRec, emptyMesh]
  | cons g gs ih =>
    intro acc
    rw [List.foldl_cons]
    have hstep : mergeStep (acc, acc.vertices.length) g =
        ({ vertices := acc.vertices ++ g.vertices
           indices := acc.indices ++ g.indices.map (fun i => i + acc.vertices.length) },
         (Mesh.mk (acc.vertices ++ g.vertices)
           (acc.indices ++ g.indices.map (fun i => i + acc.vertices.length))).vertices.length) := by
      simp [mergeStep, List.length_append]
    rw [hstep, ih]
    simp only [mergeSpecRec, Mesh.mk.injEq, List.map_append, List.map_map, List.append_assoc,
      true_and]
    congr 1
    congr 1
    apply List.map_congr_left
    intro a _
    simp only [Function.comp_apply, List.length_append]
    omega

lemma mergeMeshes_eq_specRec (ms : List Mesh) : mergeMeshes ms = mergeSpecRec ms := by
  match ms with
  | [] => rfl
  | [g] => simp [mergeMeshes, mergeSpecRec, emptyMesh]
  | g1 :: g2 :: gs =>
    have h0 : mergeMeshes (g1 :: g2 :: gs) =
        (List.foldl mergeStep (emptyMesh, emptyMesh.vertices.length) (g1 :: g2 :: gs)).1 := rfl
    rw [h0, foldl_mergeStep]
    simp [emptyMesh]

lemma mergeSpecRec_vertices_length (ms : List Mesh) :
    (mergeSpecRec ms).vertices.length = (ms.map (fun mm => mm.vertices.length)).sum := by
  induction ms with
  | nil => simp [mergeSpecRec, emptyMesh]
  | cons m ms ih => simp [mergeSpecRec, ih]

lemma mergeSpecRec_index_lt (ms : List Mesh)
    (h : ∀ mm ∈ ms, ∀ i ∈ mm.indices, i < mm.vertices.length) :
    ∀ i ∈ (mergeSpecRec ms).indices, i < (ms.map (fun mm => mm.vertices.length)).sum := by
  induction ms with
  | nil => intro i hi; simp [mergeSpecRec, emptyMesh] at hi
  | cons m ms ih =>
    intro i hi
    simp only [mergeSpecRec, List.mem_append, List.mem_map] at hi
    simp only [List.map_cons, List.sum_cons]
    rcases hi with hi | ⟨j, hj, rfl⟩
    · have := h m (List.mem_cons_self m ms) i hi
      omega
    · have hj2 := ih (fun mm hmm => h mm (List.mem_cons_of_mem m hmm)) j hj
      omega

/-! Claim theorems.  The rational arithmetic operations are unsealed so that
witnesses and counterexamples on concrete inputs can be checked by decide. -/

unseal Rat.mul Rat.add Rat.inv Rat.sub Rat.ofScientific

/-- C4: for every GeoPoint, every non-degenerate bounds and every model
dimensions, the projection computes the stated linear window map, the exact
center of the bounds maps to (0, 0), and the northwest and southeast corners
map to the extreme coordinates (minus and plus half the width and depth). -/
theorem projection_formula_center_corners (bounds : OSMBounds) (dims : ModelDimensions)
    (coord : GeoCoord) (hew : bounds.east ≠ bounds.west) (hns : bounds.north ≠ bounds.south) :
    buildingProjectPoint coord bounds (some dims) =
      ⟨((coord.lon - bounds.west) / (bounds.east - bounds.west) - 0.5) * dims.width,
        -((coord.lat - bounds.south) / (bounds.north - bounds.south) - 0.5) * dims.depth⟩ ∧
    buildingProjectPoint ⟨(bounds.north + bounds.south) / 2, (bounds.east + bounds.west) / 2⟩
      bounds (some dims) = ⟨0, 0⟩ ∧
    buildingProjectPoint ⟨bounds.north, bounds.west⟩ bounds (some dims) =
      ⟨-(dims.width / 2), -(dims.depth / 2)⟩ ∧
    buildingProjectPoint ⟨bounds.south, bounds.east⟩ bounds (some dims) =
      ⟨dims.width / 2, dims.depth / 2⟩ := by
  have hew2 : bounds.east - bounds.west ≠ 0 := sub_ne_zero.mpr hew
  have hns2 : bounds.north - bounds.south ≠ 0 := sub_ne_zero.mpr hns
  refine ⟨rfl, ?_, ?_, ?_⟩ <;>
  · simp only [buildingProjectPoint, ProjectedPoint.mk.injEq]
    constructor <;> (field_simp; ring)

/-- C4 witness: the theorem applied at concrete bounds, dimensions and point. -/
theorem projection_formula_center_corners_witness :
    ((⟨1, 0, 1, 0⟩ : OSMBounds).east ≠ (⟨1, 0, 1, 0⟩ : OSMBounds).west) ∧
    ((⟨1, 0, 1, 0⟩ : OSMBounds).north ≠ (⟨1, 0, 1, 0⟩ : OSMBounds).south) ∧
    (buildingProjectPoint ⟨1/4, 1/3⟩ ⟨1, 0, 1, 0⟩ (some ⟨100, 80⟩) =
      ⟨(((⟨1/4, 1/3⟩ : GeoCoord).lon - (⟨1, 0, 1, 0⟩ : OSMBounds).west)
          / ((⟨1, 0, 1, 0⟩ : OSMBounds).east - (⟨1, 0, 1, 0⟩ : OSMBounds).west) - 0.5)
          * (⟨100, 80⟩ : ModelDimensions).width,
        -(((⟨1/4, 1/3⟩ : GeoCoord).lat - (⟨1, 0, 1, 0⟩ : OSMBounds).south)
          / ((⟨1, 0, 1, 0⟩ : OSMBounds).north - (⟨1, 0, 1, 0⟩ : OSMBounds).south) - 0.5)
          * (⟨100, 80⟩ : ModelDimensions).depth⟩ ∧
    buildingProjectPoint ⟨((⟨1, 0, 1, 0⟩ : OSMBounds).north + (⟨1, 0, 1, 0⟩ : OSMBounds).south) / 2,
        ((⟨1, 0, 1, 0⟩ : OSMBounds).east + (⟨1, 0, 1, 0⟩ : OSMBounds).west) / 2⟩
        ⟨1, 0, 1, 0⟩ (some ⟨100, 80⟩) = ⟨0, 0⟩ ∧
    buildingProjectPoint ⟨(⟨1, 0, 1, 0⟩ : OSMBounds).north, (⟨1, 0, 1, 0⟩ : OSMBounds).west⟩
        ⟨1, 0, 1, 0⟩ (some ⟨100, 80⟩) =
      ⟨-((⟨100, 80⟩ : ModelDimensions).width / 2), -((⟨100, 80⟩ : ModelDimensions).depth / 2)⟩ ∧
    buildingProjectPoint ⟨(⟨1, 0, 1, 0⟩ : OSMBounds).south, (⟨1, 0, 1, 0⟩ : OSMBounds).east⟩
        ⟨1, 0, 1, 0⟩ (some ⟨100, 80⟩) =
      ⟨(⟨100, 80⟩ : ModelDimensions).width / 2, (⟨100, 80⟩ : ModelDimensions).depth / 2⟩) :=
  ⟨by decide, by decide,
    projection_formula_center_corners ⟨1, 0, 1, 0⟩ ⟨100, 80⟩ ⟨1/4, 1/3⟩ (by decide) (by decide)⟩

/-- C9: the three textually duplicated projection sites of the source
(building extruder, foundation builder, track extruder) compute the
identical planar coordinate on every input; each site is a pure function of
its arguments in this model, so two runs on identical inputs are literally
the same value (the final reflexive conjunct records that determinism). -/
theorem projection_shared_pure (coord : GeoCoord) (bounds : OSMBounds)
    (md : Option ModelDimensions) :
    buildingProjectPoint coord bounds md = foundationProjectPoint coord bounds md ∧
    buildingProjectPoint coord bounds md = trackProjectPoint coord bounds md ∧
    buildingProjectPoint coord bounds md = buildingProjectPoint coord bounds md :=
  ⟨rfl, rfl, rfl⟩

/-- C10: with no model dimensions supplied, each of the three projection
sites scales by the default extent 1000 by 1000, agreeing exactly with the
projection for explicitly supplied 1000 by 1000 dimensions. -/
theorem projection_default_dimensions (coord : GeoCoord) (bounds : OSMBounds) :
    buildingProjectPoint coord bounds none =
      buildingProjectPoint coord bounds (some ⟨1000, 1000⟩) ∧
    foundationProjectPoint coord bounds none =
      foundationProjectPoint coord bounds (some ⟨1000, 1000⟩) ∧
    trackProjectPoint coord bounds none =
      trackProjectPoint coord bounds (some ⟨1000, 1000⟩) :=
  ⟨rfl, rfl, rfl⟩

/-- C8: a track of fewer than two points yields the empty mesh (no vertices,
no indices), for every normalization, bounds, stroke width, dimensions and
extrusion height. -/
theorem track_degenerate_empty (norm : ProjectedPoint → ProjectedPoint)
    (points : List GPXPoint) (bounds : OSMBounds) (strokeWidth : ℚ)
    (md : Option ModelDimensions) (peh : Option ℚ)
    (hdeg : points.length < 2) :
    trackGeometry norm points bounds strokeWidth md peh = emptyMesh ∧
    (trackGeometry norm points bounds strokeWidth md peh).vertices = [] ∧
    (trackGeometry norm points bounds strokeWidth md peh).indices = [] := by
  have h : trackGeometry norm points bounds strokeWidth md peh = emptyMesh := by
    simp [trackGeometry, hdeg]
  exact ⟨h, by rw [h]; rfl, by rw [h]; rfl⟩


/-- C8 witness: a one-point track produces the empty mesh. -/
theorem track_degenerate_empty_witness :
    ([({ lat := 0, lon := 0, ele := none } : GPXPoint)].length < 2) ∧
    (trackGeometry (fun v => v) [{ lat := 0, lon := 0, ele := none }] ⟨1, 0, 1, 0⟩ 2 none none
        = emptyMesh ∧
      (trackGeometry (fun v => v) [{ lat := 0, lon := 0, ele := none }] ⟨1, 0, 1, 0⟩ 2 none none).vertices
        = [] ∧
      (trackGeometry (fun v => v) [{ lat := 0, lon := 0, ele := none }] ⟨1, 0, 1, 0⟩ 2 none none).indices
        = []) :=
  ⟨by decide,
    track_degenerate_empty (fun v => v) [{ lat := 0, lon := 0, ele := none }] ⟨1, 0, 1, 0⟩ 2
      none none (by decide)⟩

/-- C5: for a fixed source range with min strictly below max and a fixed
target range with min at most max, the linear height mapping of Building3D
is monotone: a strictly smaller height maps to a height at most as large. -/
theorem mapHeight_monotone (h1 h2 smin smax tmin tmax : ℚ)
    (hs : smin < smax) (ht : tmin ≤ tmax) (h12 : h1 < h2) :
    jsLe (mappedBuildingHeight (JSNumber.finite h1)
        ⟨JSNumber.finite smin, JSNumber.finite smax, tmin, tmax⟩)
      (mappedBuildingHeight (JSNumber.finite h2)
        ⟨JSNumber.finite smin, JSNumber.finite smax, tmin, tmax⟩) = true := by
  have hd : smax + -smin ≠ 0 := by
    rw [← sub_eq_add_neg]
    exact sub_ne_zero.mpr (ne_of_gt hs)
  have hdpos : 0 < smax + -smin := by
    rw [← sub_eq_add_neg]
    exact sub_pos.mpr hs
  simp only [mappedBuildingHeight, jsSub, jsNeg, jsAdd, jsDiv, jsMul, hd, if_false, jsLe, jsLt,
    Bool.not_eq_eq_eq_not, Bool.not_true, decide_eq_false_iff_not, not_lt]
  have hnum : (h1 + -smin) / (smax + -smin) ≤ (h2 + -smin) / (smax + -smin) := by
    apply div_le_div_of_nonneg_right ?_ hdpos.le
    linarith
  have hk : (0 : ℚ) ≤ tmax - tmin := by linarith
  nlinarith [mul_le_mul_of_nonneg_right hnum hk]

/-- C5 witness: the theorem applied at source range 4 to 40, target range
5 to 30, heights 4 and 40. -/
theorem mapHeight_monotone_witness :
    ((4 : ℚ) < 40 ∧ (5 : ℚ) ≤ 30) ∧
    jsLe (mappedBuildingHeight (JSNumber.finite 4)
        ⟨JSNumber.finite 4, JSNumber.finite 40, 5, 30⟩)
      (mappedBuildingHeight (JSNumber.finite 40)
        ⟨JSNumber.finite 4, JSNumber.finite 40, 5, 30⟩) = true :=
  ⟨⟨by norm_num, by norm_num⟩,
    mapHeight_monotone 4 40 4 40 5 30 (by norm_num) (by norm_num) (by norm_num)⟩

/-- C2 counterexample: with tags height abc and building:levels 3 the source
returns 6 (the levels rule is never consulted once a truthy height tag is
present), not the 9 the claim states; with tags height abc and building
office it returns 6, not 20. -/
theorem heightTag_fallthrough_counterexample :
    getBuildingHeight ⟨[], [(("height"), ("abc")), (("building:levels"), ("3"))]⟩ =
      JSNumber.finite 6 ∧
    getBuildingHeight ⟨[], [(("height"), ("abc")), (("building:levels"), ("3"))]⟩ ≠
      JSNumber.finite 9 ∧
    getBuildingHeight ⟨[], [(("height"), ("abc")), (("building"), ("office"))]⟩ =
      JSNumber.finite 6 ∧
    getBuildingHeight ⟨[], [(("height"), ("abc")), (("building"), ("office"))]⟩ ≠
      JSNumber.finite 20 := by
  refine ⟨by decide, by decide, by decide, by decide⟩

/-- C2 amended: whenever the height tag is present and truthy but parses to
NaN, height resolution returns the default 6 without consulting the levels
or building-type rules. -/
theorem heightTag_unparseable_default (building : Building)
    (hp : truthy (tagsGet building.tags ("height")) = true)
    (hn : parseFloat ((tagsGet building.tags ("height")).getD ("")) = JSNumber.nan) :
    getBuildingHeight building = JSNumber.finite 6 := by
  simp [getBuildingHeight, hp, hn]

/-- C2 amended witness: the amended theorem applied to the tags of the
counterexample. -/
theorem heightTag_unparseable_default_witness :
    truthy (tagsGet [(("height"), ("abc")), (("building:levels"), ("3"))] ("height")) = true ∧
    parseFloat ((tagsGet [(("height"), ("abc")), (("building:levels"), ("3"))] ("height")).getD (""))
      = JSNumber.nan ∧
    getBuildingHeight ⟨[], [(("height"), ("abc")), (("building:levels"), ("3"))]⟩ =
      JSNumber.finite 6 :=
  ⟨by decide, by decide,
    heightTag_unparseable_default ⟨[], [(("height"), ("abc")), (("building:levels"), ("3"))]⟩
      (by decide) (by decide)⟩

/-- C3 counterexample: height resolution does not always return a finite
strictly positive value: a height tag of -5 is returned as -5 (not
positive), and a height tag of Infinity is returned as positive infinity
(not finite). -/
theorem resolveHeight_sign_counterexample :
    getBuildingHeight ⟨[], [(("height"), ("-5"))]⟩ = JSNumber.finite (-5) ∧
    jsLt (JSNumber.finite 0) (getBuildingHeight ⟨[], [(("height"), ("-5"))]⟩) = false ∧
    getBuildingHeight ⟨[], [(("height"), ("Infinity"))]⟩ = JSNumber.posInf ∧
    jsIsFinite (getBuildingHeight ⟨[], [(("height"), ("Infinity"))]⟩) = false := by
  refine ⟨by decide, by decide, by decide, by decide⟩

/-- C3 amended: height resolution is total and never yields NaN; and
whenever neither a truthy height tag nor a truthy building:levels tag is
present, it returns a finite strictly positive value (from the positive
category table or its default).  A parseable height or levels tag, however,
is returned as parsed and may be non-positive or infinite. -/
theorem resolveHeight_default_positive (building : Building)
    (hh : truthy (tagsGet building.tags ("height")) = false)
    (hl : truthy (tagsGet building.tags ("building:levels")) = false) :
    getBuildingHeight building ≠ JSNumber.nan ∧
    ∃ q : ℚ, getBuildingHeight building = JSNumber.finite q ∧ 0 < q := by
  have htable : getBuildingHeight building =
      JSNumber.finite (buildingTypeHeight (tagsGet building.tags ("building"))) := by
    simp [getBuildingHeight, hh, hl]
  exact ⟨getBuildingHeight_ne_nan building, ⟨_, htable, buildingTypeHeight_pos _⟩⟩

/-- C3 amended witness: the amended theorem applied to a building tagged
only with type office. -/
theorem resolveHeight_default_positive_witness :
    truthy (tagsGet [(("building"), ("office"))] ("height")) = false ∧
    truthy (tagsGet [(("building"), ("office"))] ("building:levels")) = false ∧
    (getBuildingHeight ⟨[], [(("building"), ("office"))]⟩ ≠ JSNumber.nan ∧
      ∃ q : ℚ, getBuildingHeight ⟨[], [(("building"), ("office"))]⟩ = JSNumber.finite q ∧ 0 < q) :=
  ⟨by decide, by decide,
    resolveHeight_default_positive ⟨[], [(("building"), ("office"))]⟩ (by decide) (by decide)⟩

/-- C1 counterexample: the claim fails on two scene compositions.  With one
building and no buildingHeightRange supplied, Scene3D computes no mapping
and Building3D falls back to the literal record with min 6 and max 6: the
source range is degenerate, the denominator of the height mapping is zero,
and the mapped height of the building is NaN.  And with one building whose
height tag is Infinity and a supplied range, widening by one leaves min and
max both infinite, so min < max also fails. -/
theorem heightRange_degenerate_counterexample :
    (scene3DBuildingMapping [⟨[], []⟩] none).min = JSNumber.finite 6 ∧
    (scene3DBuildingMapping [⟨[], []⟩] none).max = JSNumber.finite 6 ∧
    jsLt (scene3DBuildingMapping [⟨[], []⟩] none).min
      (scene3DBuildingMapping [⟨[], []⟩] none).max = false ∧
    jsSub (scene3DBuildingMapping [⟨[], []⟩] none).max
      (scene3DBuildingMapping [⟨[], []⟩] none).min = JSNumber.finite 0 ∧
    mappedBuildingHeight (getBuildingHeight ⟨[], []⟩)
      (scene3DBuildingMapping [⟨[], []⟩] none) = JSNumber.nan ∧
    jsLt (scene3DBuildingMapping [⟨[], [(("height"), ("Infinity"))]⟩] (some ⟨5, 30⟩)).min
      (scene3DBuildingMapping [⟨[], [(("height"), ("Infinity"))]⟩] (some ⟨5, 30⟩)).max
      = false := by
  refine ⟨by decide, by decide, by decide, by decide, by decide, by decide⟩

/-- C1 amended: in every scene composition in which a buildingHeightRange is
supplied and every resolved building height is finite, the source range of
the height mapping satisfies min < max, and the denominator of the height
mapping is a strictly positive finite value (so the division never divides
by zero). -/
theorem heightRange_nondegenerate (buildings : List Building) (range : HeightRange)
    (hne : buildings ≠ [])
    (hfin : (buildings.map getBuildingHeight).all jsIsFinite = true) :
    jsLt (scene3DBuildingMapping buildings (some range)).min
      (scene3DBuildingMapping buildings (some range)).max = true ∧
    ∃ d : ℚ, jsSub (scene3DBuildingMapping buildings (some range)).max
      (scene3DBuildingMapping buildings (some range)).min = JSNumber.finite d ∧ 0 < d := by
  obtain ⟨b0, bs, rfl⟩ := List.exists_cons_of_ne_nil hne
  rw [List.map_cons] at hfin
  obtain ⟨m, M, hm, hM, hmM⟩ := jsMinMaxList_finite (getBuildingHeight b0)
    (bs.map getBuildingHeight) hfin
  have hmap : scene3DBuildingMapping (b0 :: bs) (some range) =
      { min := if jsEq (JSNumber.finite m) (JSNumber.finite M) then
            jsSub (JSNumber.finite m) (JSNumber.finite 1) else JSNumber.finite m
        max := if jsEq (JSNumber.finite m) (JSNumber.finite M) then
            jsAdd (JSNumber.finite M) (JSNumber.finite 1) else JSNumber.finite M
        minMM := range.min
        maxMM := range.max } := by
    simp only [scene3DBuildingMapping, sceneHeightMapping, List.map_cons]
    rw [if_neg (by simp), hm, hM]
    rfl
  rw [hmap]
  by_cases hcase : m = M
  · subst hcase
    constructor
    · have h2 : m + -1 < m + 1 := by linarith
      simp [jsEq, jsSub, jsNeg, jsAdd, jsLt, h2]
    · refine ⟨(m + 1) + -(m + -1), ?_, by linarith⟩
      simp [jsEq, jsSub, jsNeg, jsAdd]
  · have hlt : m < M := lt_of_le_of_ne hmM hcase
    constructor
    · simp [jsEq, hcase, jsLt, hlt]
    · refine ⟨M + -m, ?_, by linarith⟩
      simp [jsEq, hcase, jsSub, jsNeg, jsAdd]

/-- C1 amended witness: two buildings with finite heights 10 and 4 and a
supplied range give a source range with min strictly below max. -/
theorem heightRange_nondegenerate_witness :
    (([⟨[], [(("height"), ("10"))]⟩, ⟨[], [(("height"), ("4"))]⟩] : List Building) ≠ []) ∧
    ((([⟨[], [(("height"), ("10"))]⟩, ⟨[], [(("height"), ("4"))]⟩] : List Building).map
      getBuildingHeight).all jsIsFinite = true) ∧
    (jsLt (scene3DBuildingMapping [⟨[], [(("height"), ("10"))]⟩, ⟨[], [(("height"), ("4"))]⟩]
        (some ⟨5, 30⟩)).min
      (scene3DBuildingMapping [⟨[], [(("height"), ("10"))]⟩, ⟨[], [(("height"), ("4"))]⟩]
        (some ⟨5, 30⟩)).max = true ∧
    ∃ d : ℚ, jsSub (scene3DBuildingMapping [⟨[], [(("height"), ("10"))]⟩, ⟨[], [(("height"), ("4"))]⟩]
        (some ⟨5, 30⟩)).max
      (scene3DBuildingMapping [⟨[], [(("height"), ("10"))]⟩, ⟨[], [(("height"), ("4"))]⟩]
        (some ⟨5, 30⟩)).min = JSNumber.finite d ∧ 0 < d) :=
  ⟨by decide, by decide,
    heightRange_nondegenerate [⟨[], [(("height"), ("10"))]⟩, ⟨[], [(("height"), ("4"))]⟩]
      ⟨5, 30⟩ (by decide) (by decide)⟩

/-- C6: merging meshes: the empty list yields the empty mesh; a single mesh
is returned unchanged; in general the merge equals the recursive
concatenation with running vertex-count offsets (so input order and each
triangle index sequence, hence winding, are preserved); the merged vertex
count is the sum of the input vertex counts; and when every input indexes
only its own vertices, every merged index is at most that sum minus one. -/
theorem merge_properties (m : Mesh) (ms : List Mesh)
    (hvalid : ∀ mm ∈ ms, ∀ i ∈ mm.indices, i < mm.vertices.length) :
    mergeMeshes [] = emptyMesh ∧
    mergeMeshes [m] = m ∧
    mergeMeshes ms = mergeSpecRec ms ∧
    (mergeMeshes ms).vertices.length = (ms.map (fun mm => mm.vertices.length)).sum ∧
    ∀ i ∈ (mergeMeshes ms).indices, i + 1 ≤ (ms.map (fun mm => mm.vertices.length)).sum := by
  refine ⟨rfl, rfl, mergeMeshes_eq_specRec ms, ?_, ?_⟩
  · rw [mergeMeshes_eq_specRec]
    exact mergeSpecRec_vertices_length ms
  · rw [mergeMeshes_eq_specRec]
    intro i hi
    have := mergeSpecRec_index_lt ms hvalid i hi
    omega

/-- C6 witness: the theorem applied to a one-triangle mesh and a two-mesh
list with valid indices. -/
theorem merge_properties_witness :
    (∀ mm ∈ ([⟨[(0, 0, 0), (1, 0, 0), (0, 1, 0)], [0, 1, 2]⟩,
        ⟨[(0, 0, 1), (1, 0, 1)], [0, 1, 1]⟩] : List Mesh),
      ∀ i ∈ mm.indices, i < mm.vertices.length) ∧
    (mergeMeshes [] = emptyMesh ∧
      mergeMeshes [(⟨[(0, 0, 0)], [0]⟩ : Mesh)] = ⟨[(0, 0, 0)], [0]⟩ ∧
      mergeMeshes [⟨[(0, 0, 0), (1, 0, 0), (0, 1, 0)], [0, 1, 2]⟩,
          ⟨[(0, 0, 1), (1, 0, 1)], [0, 1, 1]⟩] =
        mergeSpecRec [⟨[(0, 0, 0), (1, 0, 0), (0, 1, 0)], [0, 1, 2]⟩,
          ⟨[(0, 0, 1), (1, 0, 1)], [0, 1, 1]⟩] ∧
      (mergeMeshes [⟨[(0, 0, 0), (1, 0, 0), (0, 1, 0)], [0, 1, 2]⟩,
          ⟨[(0, 0, 1), (1, 0, 1)], [0, 1, 1]⟩]).vertices.length =
        (([⟨[(0, 0, 0), (1, 0, 0), (0, 1, 0)], [0, 1, 2]⟩,
          ⟨[(0, 0, 1), (1, 0, 1)], [0, 1, 1]⟩] : List Mesh).map
            (fun mm => mm.vertices.length)).sum ∧
      ∀ i ∈ (mergeMeshes [⟨[(0, 0, 0), (1, 0, 0), (0, 1, 0)], [0, 1, 2]⟩,
          ⟨[(0, 0, 1), (1, 0, 1)], [0, 1, 1]⟩]).indices,
        i + 1 ≤ (([⟨[(0, 0, 0), (1, 0, 0), (0, 1, 0)], [0, 1, 2]⟩,
          ⟨[(0, 0, 1), (1, 0, 1)], [0, 1, 1]⟩] : List Mesh).map
            (fun mm => mm.vertices.length)).sum) :=
  ⟨by decide,
    merge_properties ⟨[(0, 0, 0)], [0]⟩
      [⟨[(0, 0, 0), (1, 0, 0), (0, 1, 0)], [0, 1, 2]⟩, ⟨[(0, 0, 1), (1, 0, 1)], [0, 1, 1]⟩]
      (by decide)⟩

/-- C7 counterexample: a two-vertex footprint is skipped by the foundation
builder, but the per-building path of Scene3D still constructs a shape and
an extruded geometry for it (the claim that such a footprint produces no
mesh fails for the per-building prisms): the scene yields one building
outline, namely the projected two-point outline, and its prism model has
four vertices. -/
theorem building_no_skip_counterexample :
    foundationShapes [⟨[⟨0, 0⟩, ⟨1, 1⟩], []⟩] ⟨1, 0, 1, 0⟩ none = [] ∧
    sceneBuildingShapes [⟨[⟨0, 0⟩, ⟨1, 1⟩], []⟩] ⟨1, 0, 1, 0⟩ none =
      [[⟨-500, 500⟩, ⟨500, -500⟩]] ∧
    (sceneBuildingShapes [⟨[⟨0, 0⟩, ⟨1, 1⟩], []⟩] ⟨1, 0, 1, 0⟩ none).length = 1 ∧
    (extrudePrism ((sceneBuildingShapes [⟨[⟨0, 0⟩, ⟨1, 1⟩], []⟩] ⟨1, 0, 1, 0⟩ none).getD 0 [])
      10).vertices.length = 4 := by
  refine ⟨by decide, by decide, by decide, by decide⟩

/-- C7 amended: a footprint with fewer than three vertices contributes no
shape to the merged foundation, and the remaining footprints still
contribute exactly their shapes; the per-building pipeline, by contrast,
constructs one outline for every footprint of the scene, including the
degenerate one. -/
theorem foundation_skips_degenerate (bs1 bs2 : List Building) (b : Building)
    (bounds : OSMBounds) (md : Option ModelDimensions)
    (hdeg : b.geometry.length < 3) :
    foundationShapes (bs1 ++ b :: bs2) bounds md = foundationShapes (bs1 ++ bs2) bounds md ∧
    (sceneBuildingShapes (bs1 ++ b :: bs2) bounds md).length =
      bs1.length + bs2.length + 1 := by
  constructor
  · have hb : ¬ (2 < b.geometry.length) := by omega
    simp only [foundationShapes, List.filterMap_append, List.filterMap_cons, if_neg hb]
  · simp only [sceneBuildingShapes, List.length_map, List.length_append, List.length_cons]
    omega

/-- C7 amended witness: the theorem applied to a scene with one two-vertex
footprint and one triangular footprint. -/
theorem foundation_skips_degenerate_witness :
    ((⟨[⟨0, 0⟩, ⟨1, 1⟩], []⟩ : Building).geometry.length < 3) ∧
    (foundationShapes ([] ++ (⟨[⟨0, 0⟩, ⟨1, 1⟩], []⟩ : Building) ::
        [⟨[⟨0, 0⟩, ⟨0, 1⟩, ⟨1, 1⟩], []⟩]) ⟨1, 0, 1, 0⟩ none =
      foundationShapes ([] ++ [⟨[⟨0, 0⟩, ⟨0, 1⟩, ⟨1, 1⟩], []⟩]) ⟨1, 0, 1, 0⟩ none ∧
    (sceneBuildingShapes ([] ++ (⟨[⟨0, 0⟩, ⟨1, 1⟩], []⟩ : Building) ::
        [⟨[⟨0, 0⟩, ⟨0, 1⟩, ⟨1, 1⟩], []⟩]) ⟨1, 0, 1, 0⟩ none).length =
      ([] : List Building).length + [(⟨[⟨0, 0⟩, ⟨0, 1⟩, ⟨1, 1⟩], []⟩ : Building)].length + 1) :=
  ⟨by decide,
    foundation_skips_degenerate [] [⟨[⟨0, 0⟩, ⟨0, 1⟩, ⟨1, 1⟩], []⟩] ⟨[⟨0, 0⟩, ⟨1, 1⟩], []⟩
      ⟨1, 0, 1, 0⟩ none (by decide)⟩

end GpxToSvg
